import Mathlib

/-!
Verification of the batch enrichment pipeline in `pipe_server.py`.

The Python source is shallowly embedded as pure Lean functions:

* outcomes of external effects (the HTTP fetch, each SQLite insert) are
  passed in as explicit parameters: `source : Option (List RawItem)` is
  `none` when the network call raises and `some posts` when it returns a
  JSON array, and `storeOk : Nat → Bool` tells whether the insert attempted
  while processing the item at a given fetch position succeeds;
* Python exceptions become `Except String` values carrying `str(e)`
  (`str(KeyError('title'))` is the five-character string `'title'`,
  `str(IndexError(...))` for an out-of-range list index is
  `list index out of range`);
* wall-clock timestamps are opaque: a single string `now` stands for every
  `datetime.utcnow().isoformat()` call, since no claim depends on clock
  values;
* the SQLite table is a list of `StoredRecord` threaded through the run,
  and the single `stage_notify` call is recorded in `notifyCalls` so that
  call-count properties can be stated.
-/

namespace Pipe

/-- A raw item fetched from the external JSON source.  Each field models a
dictionary key that may be absent (`item['title']` raises `KeyError` when
missing, `item.get('id', 'unknown')` substitutes a placeholder). -/
structure RawItem where
  id : Option Nat
  title : Option String
  body : Option String
deriving Repr, DecidableEq

/-- Return value of `mock_llm_analysis`. -/
structure AnalysisResult where
  insights : String
  sentiment : String
deriving Repr, DecidableEq

/-- Return value of `stage_process_item`. -/
structure ProcessedItem where
  original_id : Nat
  original_content : String
  analysis : String
  sentiment : String
  timestamp : String
deriving Repr, DecidableEq

/-- One row of the `processed_posts` table (the surrogate autoincrement id
is the row's list position and is not modelled as a field). -/
structure StoredRecord where
  original_id : Nat
  title : String
  body : String
  insights : String
  sentiment : String
  processed_at : String
deriving Repr, DecidableEq

/-- One entry of the `results` list in the response payload. -/
structure Outcome where
  original : String
  analysis : String
  sentiment : String
  stored : Bool
  timestamp : String
deriving Repr, DecidableEq

/-- The JSON body returned on the 200 path of `run_pipeline`. -/
structure Payload where
  items : List Outcome
  notificationSent : Bool
  processedAt : String
  errors : List String
  recordCount : Nat
deriving Repr, DecidableEq

/-- The HTTP response of `run_pipeline`: either the 502 fetch-failure body
`{"error": ...}` or the 200 body holding the aggregate payload. -/
inductive Response where
  | aborted (error : String) (status : Nat)
  | completed (payload : Payload) (status : Nat)
deriving Repr, DecidableEq

/-- Everything observable about one run: the HTTP response, the final
database table, and the list of `(recipient, count)` notifier calls. -/
structure RunOutput where
  response : Response
  db : List StoredRecord
  notifyCalls : List (String × Nat)
deriving Repr, DecidableEq

/-- `beginsWith n h` is true when `n` is an initial segment of `h`. -/
def beginsWith : List Char → List Char → Bool
  | [], _ => true
  | _ :: _, [] => false
  | a :: as, b :: bs => a == b && beginsWith as bs

/-- `containsSeq n h` is true when `n` occurs contiguously inside `h`;
this is Python's `n in h` on strings, viewed on character lists. -/
def containsSeq (needle : List Char) : List Char → Bool
  | [] => beginsWith needle []
  | c :: t => beginsWith needle (c :: t) || containsSeq needle t

/-- Python `needle in hay` for strings. -/
def isSubstrOf (needle hay : String) : Bool :=
  containsSeq needle.data hay.data

/-- Python `s.lower()` (character-wise lowering). -/
def pyLower (s : String) : String :=
  String.mk (s.data.map Char.toLower)

/-- Splits a character list at whitespace runs; `cur` is the current word
accumulated in reverse. -/
def wordsAux : List Char → List Char → List (List Char)
  | cur, [] => if cur.isEmpty then [] else [cur.reverse]
  | cur, c :: rest =>
    if c.isWhitespace then
      if cur.isEmpty then wordsAux [] rest else cur.reverse :: wordsAux [] rest
    else wordsAux (c :: cur) rest

/-- Python `s.split()`: split on whitespace runs, dropping empty pieces. -/
def pySplit (s : String) : List String :=
  (wordsAux [] s.data).map String.mk

/-- The characters of `s` strictly before the first newline:
Python `s.split('\n')[0]`. -/
def firstLine (s : String) : String :=
  String.mk (s.data.takeWhile (fun c => !(c == '\n')))

/-- The `positive_words` list of `mock_llm_analysis` (line 40). -/
def positive_words : List String :=
  ["good", "great", "happy", "sun", "qui", "est"]

/-- Lines 41-45 of `pipe_server.py`: the sentiment branch of
`mock_llm_analysis`.  The positive-word scan is the `if`, the
error/dolor scan is the `elif`. -/
def sentimentOf (text : String) : String :=
  if positive_words.any (fun w => isSubstrOf w (pyLower text)) then "enthusiastic"
  else if isSubstrOf "error" (pyLower text) || isSubstrOf "dolor" (pyLower text) then
    "critical"
  else "objective"

/-- Lines 47-51: the three boilerplate insight sentences joined by a
space.  `w0` is `text.split()[0]` and `words` is `text.split()`. -/
def insightsText (words : List String) (w0 : String) : String :=
  "The text focuses on key themes regarding \x27" ++ w0 ++ "\x27. " ++
  "This post contains " ++ toString words.length ++
  " words, indicating high density. " ++
  "The tone suggests a formal communication style."

/-- Lines 34-56: `mock_llm_analysis`.  Building the first insight string
evaluates `text.split()[0]`, which raises `IndexError` when the text has
no whitespace-separated words (notably the empty string). -/
def mock_llm_analysis (text : String) : Except String AnalysisResult :=
  match pySplit text with
  | [] => Except.error "list index out of range"
  | w :: ws =>
      Except.ok { insights := insightsText (w :: ws) w,
                  sentiment := sentimentOf text }

/-- Lines 71-84: `stage_process_item`.  Dictionary accesses are evaluated
in source order: `item['title']`, `item['body']` (the f-string), then the
analysis call, then `item['id']` (the result dictionary).  A missing key
raises `KeyError`, whose `str` is the quoted key name. -/
def stage_process_item (now : String) (item : RawItem) :
    Except String ProcessedItem :=
  match item.title with
  | none => Except.error "\x27title\x27"
  | some title =>
    match item.body with
    | none => Except.error "\x27body\x27"
    | some body =>
      match mock_llm_analysis (title ++ "\n" ++ body) with
      | Except.error e => Except.error e
      | Except.ok ar =>
        match item.id with
        | none => Except.error "\x27id\x27"
        | some i =>
            Except.ok { original_id := i,
                        original_content := title ++ "\n" ++ body,
                        analysis := ar.insights, sentiment := ar.sentiment,
                        timestamp := now }

/-- The row inserted by `stage_store_item` (lines 90-96): the stored title
is `content.split('\n')[0]`. -/
def mkRecord (p : ProcessedItem) : StoredRecord :=
  { original_id := p.original_id,
    title := firstLine p.original_content,
    body := p.original_content,
    insights := p.analysis,
    sentiment := p.sentiment,
    processed_at := p.timestamp }

/-- Lines 86-102: `stage_store_item`.  The whole body is wrapped in
`try/except`: on any storage fault it returns `False` and raises nothing;
on success it appends one row and returns `True`.  `ok` is the outcome of
the underlying SQLite insert, supplied by the environment. -/
def stage_store_item (ok : Bool) (p : ProcessedItem)
    (db : List StoredRecord) : Bool × List StoredRecord :=
  if ok then (true, db ++ [mkRecord p]) else (false, db)

/-- Lines 60-69: `stage_fetch_data`.  `source = none` models the request
raising (network error, timeout, `raise_for_status`), in which case the
`except` branch returns `[]`; otherwise the first `limit` posts are
returned in source order (`posts[:limit]`). -/
def stage_fetch_data (source : Option (List RawItem)) (limit : Nat) :
    List RawItem :=
  match source with
  | some posts => posts.take limit
  | none => []

/-- Lines 104-108: `stage_notify` always returns `True`. -/
def stage_notify (_email : String) (_count : Nat) : Bool := true

/-- `item.get('id', 'unknown')` rendered into the error f-string. -/
def itemIdStr (item : RawItem) : String :=
  match item.id with
  | some n => toString n
  | none => "unknown"

/-- Line 143: the per-item error string. -/
def itemErr (item : RawItem) (e : String) : String :=
  "Item " ++ itemIdStr item ++ " failed: " ++ e

/-- Lines 134-140: the per-item entry of the `results` list; the original
content is truncated to its first 50 characters plus an ellipsis. -/
def mkOutcome (p : ProcessedItem) (stored : Bool) : Outcome :=
  { original := String.mk (p.original_content.data.take 50) ++ "...",
    analysis := p.analysis,
    sentiment := p.sentiment,
    stored := stored,
    timestamp := p.timestamp }

/-- Lines 126-143: the process-and-store loop.  `idx` is the position of
the current item among the fetched items; `storeOk idx` decides whether
the insert attempted for that item succeeds.  An exception from
`stage_process_item` is caught and appended to `errors`; `stage_store_item`
never raises, so a storage fault still yields an outcome entry. -/
def runItems (now : String) (storeOk : Nat → Bool) :
    Nat → List RawItem → List StoredRecord →
    List Outcome × List String × List StoredRecord
  | _, [], db => ([], [], db)
  | idx, item :: rest, db =>
    match stage_process_item now item with
    | Except.ok p =>
        let sr := stage_store_item (storeOk idx) p db
        let r := runItems now storeOk (idx + 1) rest sr.2
        (mkOutcome p sr.1 :: r.1, r.2.1, r.2.2)
    | Except.error e =>
        let r := runItems now storeOk (idx + 1) rest db
        (r.1, itemErr item e :: r.2.1, r.2.2)

/-- Lines 112-157: `run_pipeline`.  `email = none` models a request body
without an `email` key (`data.get('email', 'admin@example.com')`).  An
empty fetched list — whether from a network failure or from the source
genuinely returning an empty array — takes the 502 branch. -/
def run_pipeline (email : Option String) (source : Option (List RawItem))
    (storeOk : Nat → Bool) (now : String) (db : List StoredRecord) :
    RunOutput :=
  let notification_email := email.getD "admin@example.com"
  let raw_items := stage_fetch_data source 3
  if raw_items.isEmpty then
    { response := Response.aborted "Failed to fetch data from source" 502,
      db := db, notifyCalls := [] }
  else
    let r := runItems now storeOk 0 raw_items db
    let notified := stage_notify notification_email r.1.length
    { response := Response.completed
        { items := r.1, notificationSent := notified, processedAt := now,
          errors := r.2.1, recordCount := r.1.length } 200,
      db := r.2.2,
      notifyCalls := [(notification_email, r.1.length)] }

/-- The outcome list of a response: the `items` field of the 200 body, and
empty for the 502 body, which carries no item list. -/
def respItems : Response → List Outcome
  | Response.aborted _ _ => []
  | Response.completed p _ => p.items

/-- The per-item error strings of a response: the `errors` field of the
200 body; the 502 body has no `errors` field. -/
def respErrors : Response → List String
  | Response.aborted _ _ => []
  | Response.completed p _ => p.errors

/-- Whether a response is the 200 aggregate-result shape. -/
def isCompleted : Response → Bool
  | Response.aborted _ _ => false
  | Response.completed _ _ => true

/-- The sentiment field of an analyzer result, when the analyzer did not
raise. -/
def sentimentResult : Except String AnalysisResult → Option String
  | Except.ok r => some r.sentiment
  | Except.error _ => none

/-! ## General lemmas about the loop and the analyzer -/

/-- Each fetched item contributes exactly one entry, either to the outcome
list or to the error list. -/
theorem runItems_length (now : String) (storeOk : Nat → Bool) :
    ∀ (items : List RawItem) (idx : Nat) (db : List StoredRecord),
      (runItems now storeOk idx items db).1.length +
        (runItems now storeOk idx items db).2.1.length = items.length := by
  intro items
  induction items with
  | nil => intro idx db; simp [runItems]
  | cons item rest ih =>
    intro idx db
    cases hp : stage_process_item now item with
    | ok p =>
      have h := ih (idx + 1) (stage_store_item (storeOk idx) p db).2
      simp [runItems, hp]
      omega
    | error e =>
      have h := ih (idx + 1) db
      simp [runItems, hp]
      omega

/-- The outcome list has one entry per item whose processing step
succeeded (whether or not its insert succeeded). -/
theorem runItems_results_length (now : String) (storeOk : Nat → Bool) :
    ∀ (items : List RawItem) (idx : Nat) (db : List StoredRecord),
      (runItems now storeOk idx items db).1.length =
        items.countP (fun it => (stage_process_item now it).isOk) := by
  intro items
  induction items with
  | nil => intro idx db; simp [runItems]
  | cons item rest ih =>
    intro idx db
    cases hp : stage_process_item now item with
    | ok p =>
      simp [runItems, hp, ih, List.countP_cons, Except.isOk, Except.toBool]
    | error e =>
      simp [runItems, hp, ih, List.countP_cons, Except.isOk, Except.toBool]

/-- The boolean returned by `stage_store_item` is exactly the success of
the underlying insert. -/
theorem stage_store_fst (ok : Bool) (p : ProcessedItem)
    (db : List StoredRecord) : (stage_store_item ok p db).1 = ok := by
  cases ok <;> rfl

/-- Closed form of the outcome list: the successfully processed items, in
fetch order, each paired with the success flag of its own insert. -/
theorem runItems_results_eq (now : String) (storeOk : Nat → Bool) :
    ∀ (items : List RawItem) (idx : Nat) (db : List StoredRecord),
      (runItems now storeOk idx items db).1 =
        (items.enumFrom idx).filterMap (fun ki =>
          match stage_process_item now ki.2 with
          | Except.ok p => some (mkOutcome p (storeOk ki.1))
          | Except.error _ => none) := by
  intro items
  induction items with
  | nil => intro idx db; simp [runItems]
  | cons item rest ih =>
    intro idx db
    cases hp : stage_process_item now item with
    | ok p =>
      simp [runItems, hp, ih, List.enumFrom, List.filterMap_cons,
        stage_store_fst]
    | error e =>
      simp [runItems, hp, ih, List.enumFrom, List.filterMap_cons]

/-- The sentiment branch only ever produces one of the three labels. -/
theorem sentimentOf_cases (t : String) :
    sentimentOf t = "objective" ∨ sentimentOf t = "enthusiastic" ∨
      sentimentOf t = "critical" := by
  unfold sentimentOf
  split_ifs with h1 h2
  · exact Or.inr (Or.inl rfl)
  · exact Or.inr (Or.inr rfl)
  · exact Or.inl rfl

/-- When the analyzer returns, its sentiment is the sentiment branch's
value on the input text. -/
theorem mock_llm_sentiment (t : String) (r : AnalysisResult)
    (hr : mock_llm_analysis t = Except.ok r) : r.sentiment = sentimentOf t := by
  unfold mock_llm_analysis at hr
  cases h : pySplit t with
  | nil => rw [h] at hr; exact absurd hr (by simp)
  | cons w ws =>
    rw [h] at hr
    simp only [Except.ok.injEq] at hr
    rw [← hr]

/-- A successfully processed item carries a sentiment produced by the
sentiment branch (on its combined title-and-body text). -/
theorem stage_process_sentiment (now : String) (item : RawItem)
    (p : ProcessedItem) (h : stage_process_item now item = Except.ok p) :
    ∃ t, p.sentiment = sentimentOf t := by
  rcases item with ⟨id, title, body⟩
  cases title with
  | none => simp [stage_process_item] at h
  | some ti =>
    cases body with
    | none => simp [stage_process_item] at h
    | some bo =>
      cases ha : mock_llm_analysis (ti ++ "\n" ++ bo) with
      | error e => simp [stage_process_item, ha] at h
      | ok ar =>
        cases id with
        | none => simp [stage_process_item, ha] at h
        | some i =>
          refine ⟨ti ++ "\n" ++ bo, ?_⟩
          simp [stage_process_item, ha] at h
          rw [← h]
          exact mock_llm_sentiment _ _ ha

/-- Every outcome entry's sentiment comes from the sentiment branch. -/
theorem runItems_sentiment (now : String) (storeOk : Nat → Bool) :
    ∀ (items : List RawItem) (idx : Nat) (db : List StoredRecord)
      (o : Outcome), o ∈ (runItems now storeOk idx items db).1 →
      ∃ t, o.sentiment = sentimentOf t := by
  intro items
  induction items with
  | nil => intro idx db o ho; simp [runItems] at ho
  | cons item rest ih =>
    intro idx db o ho
    cases hp : stage_process_item now item with
    | ok p =>
      simp only [runItems, hp] at ho
      cases ho with
      | head =>
        rcases stage_process_sentiment now item p hp with ⟨t, ht⟩
        exact ⟨t, by simp [mkOutcome, ht]⟩
      | tail _ ho2 => exact ih _ _ o ho2
    | error e =>
      simp only [runItems, hp] at ho
      exact ih _ _ o ho

/-- When the fetched batch is nonempty the run reaches phases 2-4 and
returns the aggregate 200 payload built from the loop's accumulators. -/
theorem run_pipeline_completed (email : Option String) (items : List RawItem)
    (storeOk : Nat → Bool) (now : String) (db : List StoredRecord)
    (h : items.take 3 ≠ []) :
    run_pipeline email (some items) storeOk now db =
      { response := Response.completed
          { items := (runItems now storeOk 0 (items.take 3) db).1,
            notificationSent := true, processedAt := now,
            errors := (runItems now storeOk 0 (items.take 3) db).2.1,
            recordCount := (runItems now storeOk 0 (items.take 3) db).1.length }
          200,
        db := (runItems now storeOk 0 (items.take 3) db).2.2,
        notifyCalls := [(email.getD "admin@example.com",
          (runItems now storeOk 0 (items.take 3) db).1.length)] } := by
  have hb : (items.take 3).isEmpty = false := by
    cases hi : items.take 3 with
    | nil => exact absurd hi h
    | cons a l => rfl
  simp [run_pipeline, stage_fetch_data, hb, stage_notify]

/-! ## The claims -/

/-- C2, counterexample: when the external fetch fails, the caller does not
receive the aggregate result shape at all — the code returns the 502 body
`\x7b"error": ...\x7d`, which has no item sequence, no `notificationSent`
field and no `errors` sequence, so the claimed aggregate shape with
`notificationSent = false` and one error entry does not occur. -/
theorem claim2_counterexample :
    isCompleted (run_pipeline none none (fun _ => true) "t0" []).response = false ∧
    (run_pipeline none none (fun _ => true) "t0" []).response =
      Response.aborted "Failed to fetch data from source" 502 ∧
    (run_pipeline none none (fun _ => true) "t0" []).notifyCalls = [] := by
  exact ⟨rfl, rfl, rfl⟩

/-- C2, amended: for every run in which the external fetch fails, the run
short-circuits and the caller receives the HTTP 502 error body with the
single message "Failed to fetch data from source"; no items are processed,
no record is stored, and the notifier is never called. -/
theorem claim2_fetch_failure (email : Option String) (storeOk : Nat → Bool)
    (now : String) (db : List StoredRecord) :
    run_pipeline email none storeOk now db =
      { response := Response.aborted "Failed to fetch data from source" 502,
        db := db, notifyCalls := [] } := rfl

/-- C3: for every run whose fetch succeeds with N raw items (N ≤ 3), the
length of the outcome sequence plus the number of per-item error strings
in the result equals N. -/
theorem claim3_conservation (email : Option String) (items : List RawItem)
    (storeOk : Nat → Bool) (now : String) (db : List StoredRecord)
    (h : items.length ≤ 3) :
    (respItems (run_pipeline email (some items) storeOk now db).response).length +
      (respErrors (run_pipeline email (some items) storeOk now db).response).length =
      items.length := by
  have htake : items.take 3 = items := List.take_of_length_le h
  cases items with
  | nil => simp [run_pipeline, stage_fetch_data, respItems, respErrors]
  | cons a l =>
    have hne : (a :: l : List RawItem).take 3 ≠ [] := by rw [htake]; simp
    rw [run_pipeline_completed email (a :: l) storeOk now db hne]
    simp only [respItems, respErrors, htake]
    exact runItems_length now storeOk (a :: l) 0 db

/-- Witness for C3: a successful one-item fetch yields one outcome and no
error, summing to the batch size 1. -/
theorem claim3_witness :
    (respItems (run_pipeline none
        (some [{ id := some 11, title := some "Nu", body := some "Xi" }])
        (fun _ => true) "t3" []).response).length +
      (respErrors (run_pipeline none
        (some [{ id := some 11, title := some "Nu", body := some "Xi" }])
        (fun _ => true) "t3" []).response).length = 1 :=
  claim3_conservation none
    [{ id := some 11, title := some "Nu", body := some "Xi" }]
    (fun _ => true) "t3" [] (by decide)

/-- C5, counterexample: the analyzer does fail on the empty string — it
raises `IndexError` while evaluating `text.split()[0]` instead of
returning Objective boilerplate. -/
theorem claim5_counterexample :
    mock_llm_analysis "" = Except.error "list index out of range" := rfl

/-- C5, amended: the analyzer succeeds exactly on inputs that contain at
least one whitespace-separated word; on the empty string (which has none)
it raises `IndexError: list index out of range` rather than returning an
Objective result. -/
theorem claim5_analyzer_totality (t : String) :
    (mock_llm_analysis t).isOk = !(pySplit t).isEmpty ∧
    mock_llm_analysis "" = Except.error "list index out of range" := by
  constructor
  · cases h : pySplit t with
    | nil => simp [mock_llm_analysis, h, Except.isOk, Except.toBool]
    | cons w ws => simp [mock_llm_analysis, h, Except.isOk, Except.toBool]
  · rfl

/-- C8: the analyzer is a pure function of its input text — identical
inputs give identical (analysis, sentiment) outputs. -/
theorem claim8_determinism (t1 t2 : String) (h : t1 = t2) :
    mock_llm_analysis t1 = mock_llm_analysis t2 ∧
    sentimentOf t1 = sentimentOf t2 := by
  subst h
  exact ⟨rfl, rfl⟩

/-- Witness for C8 at the input "alpha". -/
theorem claim8_witness :
    mock_llm_analysis "alpha" = mock_llm_analysis "alpha" ∧
    sentimentOf "alpha" = sentimentOf "alpha" :=
  claim8_determinism "alpha" "alpha" rfl

/-- C9: when the fetch succeeds but yields an empty batch, the run is
indistinguishable from a fetch failure: it takes the 502 branch, so a run
can never complete normally on an empty fetched item list. -/
theorem claim9_empty_batch (email : Option String) (storeOk : Nat → Bool)
    (now : String) (db : List StoredRecord) (items : List RawItem)
    (h : items.take 3 = []) :
    run_pipeline email (some items) storeOk now db =
      run_pipeline email none storeOk now db ∧
    (run_pipeline email (some items) storeOk now db).response =
      Response.aborted "Failed to fetch data from source" 502 := by
  constructor
  · simp [run_pipeline, stage_fetch_data, h]
  · simp [run_pipeline, stage_fetch_data, h]

/-- Witness for C9: the source returning the empty JSON array gives the
fetch-failure response. -/
theorem claim9_witness :
    run_pipeline none (some []) (fun _ => true) "t9" [] =
      run_pipeline none none (fun _ => true) "t9" [] ∧
    (run_pipeline none (some []) (fun _ => true) "t9" []).response =
      Response.aborted "Failed to fetch data from source" 502 :=
  claim9_empty_batch none (fun _ => true) "t9" [] [] rfl

/-- C4, counterexample: the text "good error" contains a positive trigger
("good") and a critical trigger ("error"), yet the analyzer classifies it
as enthusiastic, not critical — the positive scan is the `if`, the
critical scan only the `elif`. -/
theorem claim4_counterexample :
    positive_words.any (fun w => isSubstrOf w (pyLower "good error")) = true ∧
    (isSubstrOf "error" (pyLower "good error") ||
      isSubstrOf "dolor" (pyLower "good error")) = true ∧
    sentimentOf "good error" = "enthusiastic" ∧
    sentimentResult (mock_llm_analysis "good error") = some "enthusiastic" ∧
    sentimentOf "good error" ≠ "critical" := by decide

/-- C4, amended: when the input contains both a critical trigger and a
positive trigger, the analyzer classifies it as Enthusiastic — positive
triggers take precedence over critical triggers because they are checked
first. -/
theorem claim4_positive_precedence (t : String)
    (hp : positive_words.any (fun w => isSubstrOf w (pyLower t)) = true)
    (_hc : (isSubstrOf "error" (pyLower t) ||
      isSubstrOf "dolor" (pyLower t)) = true) :
    sentimentOf t = "enthusiastic" ∧
    sentimentResult (mock_llm_analysis t) =
      (if (pySplit t).isEmpty then none else some "enthusiastic") := by
  have hs : sentimentOf t = "enthusiastic" := by
    unfold sentimentOf
    rw [hp]
    rfl
  refine ⟨hs, ?_⟩
  cases h : pySplit t with
  | nil => simp [mock_llm_analysis, sentimentResult, h]
  | cons w ws => simp [mock_llm_analysis, sentimentResult, h, hs]

/-- Witness for C4 at "good error", which holds both trigger kinds. -/
theorem claim4_witness :
    sentimentOf "good error" = "enthusiastic" ∧
    sentimentResult (mock_llm_analysis "good error") =
      (if (pySplit "good error").isEmpty then none else some "enthusiastic") :=
  claim4_positive_precedence "good error" (by decide) (by decide)

/-- C6, counterexample: a run with one fetched item whose insert fails
still calls the notifier with count 1 (the number of outcome records),
although zero items were successfully stored — the table is unchanged and
the single outcome carries stored = false. -/
theorem claim6_counterexample :
    (run_pipeline none
        (some [{ id := some 9, title := some "Gamma", body := some "Delta" }])
        (fun _ => false) "t6" []).notifyCalls = [("admin@example.com", 1)] ∧
    (run_pipeline none
        (some [{ id := some 9, title := some "Gamma", body := some "Delta" }])
        (fun _ => false) "t6" []).db = [] ∧
    (respItems (run_pipeline none
        (some [{ id := some 9, title := some "Gamma", body := some "Delta" }])
        (fun _ => false) "t6" []).response).map Outcome.stored = [false] := by
  exact ⟨rfl, rfl, rfl⟩

/-- C6, amended: in every run that reaches phase 2, the notifier is called
exactly once, with the caller-supplied recipient (or the default) and the
number of outcome records — the count of items whose analysis succeeded,
including items whose storage failed. -/
theorem claim6_notify_count (email : Option String) (items : List RawItem)
    (storeOk : Nat → Bool) (now : String) (db : List StoredRecord)
    (h : items.take 3 ≠ []) :
    (run_pipeline email (some items) storeOk now db).notifyCalls =
      [(email.getD "admin@example.com",
        (items.take 3).countP (fun it => (stage_process_item now it).isOk))] ∧
    (run_pipeline email (some items) storeOk now db).notifyCalls.length = 1 := by
  rw [run_pipeline_completed email items storeOk now db h]
  simp [runItems_results_length]

/-- Witness for C6: one fetched item, insert failing, notifier called once
with the analysis-success count. -/
theorem claim6_witness :
    (run_pipeline (some "ops@example.com")
        (some [{ id := some 7, title := some "Hello", body := some "World" }])
        (fun _ => false) "t2" []).notifyCalls =
      [("ops@example.com",
        ([{ id := some 7, title := some "Hello", body := some "World" }] :
            List RawItem).take 3
          |>.countP (fun it => (stage_process_item "t2" it).isOk))] ∧
    (run_pipeline (some "ops@example.com")
        (some [{ id := some 7, title := some "Hello", body := some "World" }])
        (fun _ => false) "t2" []).notifyCalls.length = 1 :=
  claim6_notify_count (some "ops@example.com")
    [{ id := some 7, title := some "Hello", body := some "World" }]
    (fun _ => false) "t2" [] (by decide)

/-- C7: the fetcher truncates the source array to its first `limit`
elements preserving order; the pipeline only ever consumes the first 3
posts, and the outcome sequence is the order-preserving image of that
3-element prefix. -/
theorem claim7_batch_limit (posts : List RawItem) (limit : Nat)
    (email : Option String) (storeOk : Nat → Bool) (now : String)
    (db : List StoredRecord) :
    stage_fetch_data (some posts) limit = posts.take limit ∧
    run_pipeline email (some posts) storeOk now db =
      run_pipeline email (some (posts.take 3)) storeOk now db ∧
    respItems (run_pipeline email (some posts) storeOk now db).response =
      ((posts.take 3).enumFrom 0).filterMap (fun ki =>
        match stage_process_item now ki.2 with
        | Except.ok p => some (mkOutcome p (storeOk ki.1))
        | Except.error _ => none) := by
  have htt : (posts.take 3).take 3 = posts.take 3 := by
    simp [List.take_take]
  refine ⟨rfl, ?_, ?_⟩
  · simp only [run_pipeline, stage_fetch_data, htt]
  · cases hp : posts.take 3 with
    | nil => simp [run_pipeline, stage_fetch_data, hp, respItems]
    | cons a l =>
      rw [run_pipeline_completed email posts storeOk now db (by rw [hp]; simp)]
      simp only [respItems]
      rw [runItems_results_eq, hp]

/-- C1, counterexample: when the storage step fails for a fetched item, no
error string is appended and the item still contributes an outcome record
(with stored = false) — contradicting the claim that a failed
analyze-or-store step yields one error entry and no outcome record. -/
theorem claim1_counterexample :
    respErrors (run_pipeline none
        (some [{ id := some 8, title := some "Theta", body := some "Mu" }])
        (fun _ => false) "t5" []).response = [] ∧
    (respItems (run_pipeline none
        (some [{ id := some 8, title := some "Theta", body := some "Mu" }])
        (fun _ => false) "t5" []).response).map Outcome.stored = [false] ∧
    (run_pipeline none
        (some [{ id := some 8, title := some "Theta", body := some "Mu" }])
        (fun _ => false) "t5" []).db = [] := by
  exact ⟨rfl, rfl, rfl⟩

/-- C1, amended: failures of the analysis step are isolated per item —
such an item contributes exactly one formatted error string carrying its
identifier (or a placeholder) and the cause, no outcome record, and
processing continues: with item #2 of 3 failing analysis, the run
completes with outcomes for items #1 and #3, one error naming item #2,
and two persisted records.  A failure of the storage step, however, is
swallowed by `stage_store_item`: the item still contributes an outcome
record with stored = false and no error string. -/
theorem claim1_per_item_isolation
    (now e : String) (i1 i2 i3 j : RawItem) (db dbj : List StoredRecord)
    (p1 p3 pj : ProcessedItem) (email : Option String)
    (h1 : stage_process_item now i1 = Except.ok p1)
    (h2 : stage_process_item now i2 = Except.error e)
    (h3 : stage_process_item now i3 = Except.ok p3)
    (hj : stage_process_item now j = Except.ok pj) :
    run_pipeline email (some [i1, i2, i3]) (fun _ => true) now db =
      { response := Response.completed
          { items := [mkOutcome p1 true, mkOutcome p3 true],
            notificationSent := true, processedAt := now,
            errors := [itemErr i2 e], recordCount := 2 } 200,
        db := db ++ [mkRecord p1, mkRecord p3],
        notifyCalls := [(email.getD "admin@example.com", 2)] } ∧
    run_pipeline email (some [j]) (fun _ => false) now dbj =
      { response := Response.completed
          { items := [mkOutcome pj false],
            notificationSent := true, processedAt := now,
            errors := [], recordCount := 1 } 200,
        db := dbj,
        notifyCalls := [(email.getD "admin@example.com", 1)] } := by
  constructor
  · simp [run_pipeline, stage_fetch_data, runItems, h1, h2, h3,
      stage_store_item, stage_notify, List.append_assoc]
  · simp [run_pipeline, stage_fetch_data, runItems, hj,
      stage_store_item, stage_notify]

/-- Witness for C1: item 2 lacks a title, so its analysis step raises
`KeyError: \x27title\x27`; items 1 and 3 process and store normally. -/
theorem claim1_witness :
    run_pipeline none
      (some [{ id := some 1, title := some "A", body := some "B" },
             { id := some 2, title := none, body := some "x" },
             { id := some 3, title := some "C", body := some "D" }])
      (fun _ => true) "t1" [] =
      { response := Response.completed
          { items := [mkOutcome
                { original_id := 1, original_content := "A\nB",
                  analysis := insightsText ["A", "B"] "A",
                  sentiment := "objective", timestamp := "t1" } true,
              mkOutcome
                { original_id := 3, original_content := "C\nD",
                  analysis := insightsText ["C", "D"] "C",
                  sentiment := "objective", timestamp := "t1" } true],
            notificationSent := true, processedAt := "t1",
            errors := [itemErr { id := some 2, title := none, body := some "x" }
              "\x27title\x27"],
            recordCount := 2 } 200,
        db := [] ++ [mkRecord
            { original_id := 1, original_content := "A\nB",
              analysis := insightsText ["A", "B"] "A",
              sentiment := "objective", timestamp := "t1" },
          mkRecord
            { original_id := 3, original_content := "C\nD",
              analysis := insightsText ["C", "D"] "C",
              sentiment := "objective", timestamp := "t1" }],
        notifyCalls := [("admin@example.com", 2)] } ∧
    run_pipeline none
      (some [{ id := some 4, title := some "E", body := some "F" }])
      (fun _ => false) "t1" [] =
      { response := Response.completed
          { items := [mkOutcome
                { original_id := 4, original_content := "E\nF",
                  analysis := insightsText ["E", "F"] "E",
                  sentiment := "objective", timestamp := "t1" } false],
            notificationSent := true, processedAt := "t1",
            errors := [], recordCount := 1 } 200,
        db := [],
        notifyCalls := [("admin@example.com", 1)] } :=
  claim1_per_item_isolation "t1" "\x27title\x27"
    { id := some 1, title := some "A", body := some "B" }
    { id := some 2, title := none, body := some "x" }
    { id := some 3, title := some "C", body := some "D" }
    { id := some 4, title := some "E", body := some "F" }
    [] []
    { original_id := 1, original_content := "A\nB",
      analysis := insightsText ["A", "B"] "A",
      sentiment := "objective", timestamp := "t1" }
    { original_id := 3, original_content := "C\nD",
      analysis := insightsText ["C", "D"] "C",
      sentiment := "objective", timestamp := "t1" }
    { original_id := 4, original_content := "E\nF",
      analysis := insightsText ["E", "F"] "E",
      sentiment := "objective", timestamp := "t1" }
    none rfl rfl rfl rfl

/-- C10: every sentiment the analyzer returns, and every sentiment stored
in an outcome record of a run, is one of the three lowercase labels
"objective", "enthusiastic", "critical". -/
theorem claim10_closed_sentiment (t : String) (r : AnalysisResult)
    (hr : mock_llm_analysis t = Except.ok r)
    (email : Option String) (source : Option (List RawItem))
    (storeOk : Nat → Bool) (now : String) (db : List StoredRecord)
    (o : Outcome)
    (ho : o ∈ respItems (run_pipeline email source storeOk now db).response) :
    (r.sentiment = "objective" ∨ r.sentiment = "enthusiastic" ∨
      r.sentiment = "critical") ∧
    (o.sentiment = "objective" ∨ o.sentiment = "enthusiastic" ∨
      o.sentiment = "critical") := by
  constructor
  · rw [mock_llm_sentiment t r hr]
    exact sentimentOf_cases t
  · rcases source with _ | posts
    · simp [run_pipeline, stage_fetch_data, respItems] at ho
    · cases hp : posts.take 3 with
      | nil => simp [run_pipeline, stage_fetch_data, hp, respItems] at ho
      | cons a l =>
        rw [run_pipeline_completed email posts storeOk now db
          (by rw [hp]; simp)] at ho
        simp only [respItems] at ho
        rcases runItems_sentiment now storeOk (posts.take 3) 0 db o ho with
          ⟨u, hu⟩
        rw [hu]
        exact sentimentOf_cases u

/-- Witness for C10: a concrete analyzer result and a concrete outcome of
a one-item run, both with sentiment "objective". -/
theorem claim10_witness :
    (AnalysisResult.sentiment
        { insights := insightsText ["Lorem", "ipsum"] "Lorem",
          sentiment := "objective" } = "objective" ∨
      AnalysisResult.sentiment
        { insights := insightsText ["Lorem", "ipsum"] "Lorem",
          sentiment := "objective" } = "enthusiastic" ∨
      AnalysisResult.sentiment
        { insights := insightsText ["Lorem", "ipsum"] "Lorem",
          sentiment := "objective" } = "critical") ∧
    (Outcome.sentiment (mkOutcome
        { original_id := 5, original_content := "Epsilon\nZeta",
          analysis := insightsText ["Epsilon", "Zeta"] "Epsilon",
          sentiment := "objective", timestamp := "t10" } true) = "objective" ∨
      Outcome.sentiment (mkOutcome
        { original_id := 5, original_content := "Epsilon\nZeta",
          analysis := insightsText ["Epsilon", "Zeta"] "Epsilon",
          sentiment := "objective",
          timestamp := "t10" } true) = "enthusiastic" ∨
      Outcome.sentiment (mkOutcome
        { original_id := 5, original_content := "Epsilon\nZeta",
          analysis := insightsText ["Epsilon", "Zeta"] "Epsilon",
          sentiment := "objective", timestamp := "t10" } true) = "critical") :=
  claim10_closed_sentiment "Lorem ipsum"
    { insights := insightsText ["Lorem", "ipsum"] "Lorem",
      sentiment := "objective" } rfl
    none (some [{ id := some 5, title := some "Epsilon", body := some "Zeta" }])
    (fun _ => true) "t10" []
    (mkOutcome
      { original_id := 5, original_content := "Epsilon\nZeta",
        analysis := insightsText ["Epsilon", "Zeta"] "Epsilon",
        sentiment := "objective", timestamp := "t10" } true)
    (by decide)

end Pipe
